import Mathlib

/-!
Shallow embedding of the risk-assessment core of `app.py` — the functions
`risk_status` (lines 27–33) and `metric_status` (lines 35–55) and the
`/predict` request handler (lines 59–106) — together with theorems checking
the specification's claims about it.

Numbers are modelled as exact rationals.  The Python source computes with
IEEE doubles, but every threshold in the source is an exact decimal and every
concrete input exercised below is an exact decimal well inside the range
where double arithmetic is exact on the comparisons involved, so the two
agree on everything stated here.
-/

set_option autoImplicit false

namespace WellnessWave

/-- The function `risk_status(prob)`, app.py lines 27–33. -/
def risk_status (prob : ℚ) : String :=
  if prob > 0.7 then "High Risk"
  else if prob > 0.4 then "Intermediate Risk"
  else "Low Risk"

/-- A value passed to `metric_status`: Python is dynamically typed, so the
`value` argument is either a scalar measurement or a systolic/diastolic
pair. -/
inductive MValue
  | scalar (x : ℚ)
  | pair (s d : ℚ)
deriving DecidableEq

/-- Branch of `metric_status` for the name "BMI", app.py lines 37–40. -/
def bmiStatus (value : ℚ) : String :=
  if value < 18.5 then "Underweight"
  else if value < 25 then "Normal"
  else if value < 30 then "Overweight"
  else "Obese"

/-- Branch of `metric_status` for the name "BloodSugar", app.py lines 42–44. -/
def bloodSugarStatus (value : ℚ) : String :=
  if value < 100 then "Normal"
  else if value < 126 then "Prediabetes"
  else "High"

/-- Branch of `metric_status` for the name "BloodPressure", app.py
lines 46–50: the four rules are tried top to bottom and the first match
wins. -/
def bpStatus (s d : ℚ) : String :=
  if s < 120 ∧ d < 80 then "Normal"
  else if s < 130 ∧ d < 80 then "Elevated"
  else if s < 140 ∨ d < 90 then "High BP Stage 1"
  else "High BP Stage 2"

/-- Branch of `metric_status` for the name "Cholesterol", app.py
lines 52–54. -/
def cholesterolStatus (value : ℚ) : String :=
  if value < 200 then "Desirable"
  else if value < 240 then "Borderline High"
  else "High"

/-- The function `metric_status(name, value)`, app.py lines 35–55.  The name
checks happen in source order (BMI, BloodSugar, BloodPressure, Cholesterol);
an unrecognized name falls through to `return "Unknown"` on line 55.
`none` models the `TypeError` Python would raise when the value's shape does
not fit the branch reached (a pair compared against a number, or a scalar
unpacked as `s,d`); `some` is the label the function returns. -/
def metric_status (name : String) (value : MValue) : Option String :=
  if name = "BMI" then
    match value with
    | .scalar x => some (bmiStatus x)
    | .pair _ _ => none
  else if name = "BloodSugar" then
    match value with
    | .scalar x => some (bloodSugarStatus x)
    | .pair _ _ => none
  else if name = "BloodPressure" then
    match value with
    | .pair s d => some (bpStatus s d)
    | .scalar _ => none
  else if name = "Cholesterol" then
    match value with
    | .scalar x => some (cholesterolStatus x)
    | .pair _ _ => none
  else some "Unknown"

/-- Numeric value of a list of decimal digit characters (most significant
first; the empty list counts as 0). -/
def digitsVal (l : List Char) : ℕ :=
  l.foldl (fun a c => a * 10 + (c.toNat - 48)) 0

/-- Model of Python `float(s)` on the strings this route receives: an
optional sign, then decimal digits with at most one point and at least one
digit; anything else raises `ValueError`, modelled as `none`. -/
def parseFloat (s : String) : Option ℚ :=
  let (neg, cs) :=
    match s.data with
    | '-' :: rest => (true, rest)
    | '+' :: rest => (false, rest)
    | l => (false, l)
  let ip := cs.takeWhile Char.isDigit
  let rest := cs.dropWhile Char.isDigit
  let mag : Option ℚ :=
    match rest with
    | [] => if ip.isEmpty then none else some (digitsVal ip : ℚ)
    | '.' :: fp =>
        if fp.all Char.isDigit && !(ip.isEmpty && fp.isEmpty) then
          some ((digitsVal ip : ℚ) + (digitsVal fp : ℚ) / 10 ^ fp.length)
        else none
    | _ => none
  Option.map (fun m => if neg then -m else m) mag

/-- Model of Python `int(s)`: an optional sign then decimal digits only. -/
def parseInt (s : String) : Option ℤ :=
  let (neg, cs) :=
    match s.data with
    | '-' :: rest => (true, rest)
    | '+' :: rest => (false, rest)
    | l => (false, l)
  if cs.isEmpty || !(cs.all Char.isDigit) then none
  else some (if neg then -(digitsVal cs : ℤ) else (digitsVal cs : ℤ))

/-- The ways the `/predict` handler can terminate abnormally, by the Python
exception raised: `badRequestKey f` is werkzeug's `BadRequestKeyError` from
`request.form[f]` when field `f` is absent, `valueError` a failed
`float(...)` or `int(...)` conversion, and `zeroDivision` the
`ZeroDivisionError` from the BMI division on line 64 when height is 0. -/
inductive PredictError
  | badRequestKey (field : String)
  | valueError
  | zeroDivision
deriving DecidableEq

/-- Which of those failures the surrounding Flask app reports as a
user-visible 4xx validation rejection: `BadRequestKeyError` is an
`HTTPException` with code 400, which Flask renders as a client error, while
`ValueError` and `ZeroDivisionError` escape the handler unhandled and become
a 500 internal server error. -/
def isValidationFailure : PredictError → Bool
  | .badRequestKey _ => true
  | .valueError => false
  | .zeroDivision => false

/-- A loaded classifier exactly as `/predict` uses it: its
`feature_names_in_` column list and its positive-class probability on an
ordered numeric row (`predict_proba(frame)[0][1]`, line 92). -/
structure DiseaseModel where
  feature_names_in_ : List String
  proba : List ℚ → ℚ

/-- The fixed disease list, app.py line 24. -/
def diseases : List String := ["Obesity", "Hypertension", "Diabetes", "HeartDisease"]

/-- First value bound to key `k` in an association list — a DataFrame column
lookup (`get_dummies` output has pairwise distinct column names). -/
def colLookup {α : Type} (k : String) : List (String × α) → Option α
  | [] => none
  | (k', v) :: rest => if k' = k then some v else colLookup k rest

/-- One iteration of the column-alignment loop body, app.py lines 85–88:
every required column missing from the frame is added with value 0, then the
frame is reindexed to exactly `cols`, in the order of `cols`. -/
def project (cols : List String) (frame : List (String × ℚ)) : List (String × ℚ) :=
  cols.map fun c => (c, (colLookup c frame).getD 0)

/-- The whole alignment loop, app.py lines 84–88.  Note that the source
reassigns `input_data` inside the loop, so each disease's projection is
applied to the previous disease's output and a single final frame results;
that one frame is what every model's `predict_proba` later receives. -/
def alignAll (models : String → DiseaseModel) (frame : List (String × ℚ)) :
    List (String × ℚ) :=
  diseases.foldl (fun acc d => project (models d).feature_names_in_ acc) frame

/-- Exact decimal rounding to one place, modelling `round(x, 1)` on line 99.
Python rounds ties to even; no input below sits on a tie, where the two
rules agree. -/
def round1 (x : ℚ) : ℚ := (⌊x * 10 + 1 / 2⌋ : ℚ) / 10

/-- The format `f"{x:.1f}"`: the decimal written with one digit after the
point (same tie caveat as `round1`). -/
def fmt1 (x : ℚ) : String :=
  let t : ℤ := ⌊x * 10 + 1 / 2⌋
  if t < 0 then "-" ++ toString ((-t).toNat / 10) ++ "." ++ toString ((-t).toNat % 10)
  else toString (t.toNat / 10) ++ "." ++ toString (t.toNat % 10)

/-- A JSON leaf in the response: a number or a string. -/
inductive Val
  | num (q : ℚ)
  | str (s : String)
deriving DecidableEq

/-- One entry of the `diseases` response map, app.py lines 93–96. -/
structure DiseaseEntry where
  chance : String
  status : String
deriving DecidableEq

/-- One entry of the `metrics` response map, app.py lines 98–104. -/
structure MetricEntry where
  value : Val
  status : String
deriving DecidableEq

/-- The JSON body of a successful `/predict` response, app.py line 106. -/
structure Response where
  diseases : List (String × DiseaseEntry)
  metrics : List (String × MetricEntry)
deriving DecidableEq

/-- `request.form[k]`: the field's string, or `BadRequestKeyError`. -/
def formGet (form : List (String × String)) (k : String) : Except PredictError String :=
  match colLookup k form with
  | some s => Except.ok s
  | none => Except.error (.badRequestKey k)

/-- `float(s)` as an effect: `ValueError` when the string does not parse. -/
def parseFloatE (s : String) : Except PredictError ℚ :=
  match parseFloat s with
  | some q => Except.ok q
  | none => Except.error .valueError

/-- `int(s)` as an effect. -/
def parseIntE (s : String) : Except PredictError ℤ :=
  match parseInt s with
  | some n => Except.ok n
  | none => Except.error .valueError

/-- `float(data[k])`, app.py lines 62–78: field lookup then conversion. -/
def getFloat (form : List (String × String)) (k : String) : Except PredictError ℚ :=
  formGet form k >>= parseFloatE

/-- `int(data[k])`, app.py line 67. -/
def getInt (form : List (String × String)) (k : String) : Except PredictError ℤ :=
  formGet form k >>= parseIntE

/-- The BMI computation `weight / ((height / 100) ** 2)` on line 64: Python
raises `ZeroDivisionError` exactly when the denominator is zero, i.e. at
height 0 (a negative height squares to a positive denominator and goes
through silently). -/
def computeBmi (height weight : ℚ) : Except PredictError ℚ :=
  if (height / 100) ^ 2 = 0 then Except.error PredictError.zeroDivision
  else Except.ok (weight / (height / 100) ^ 2)

/-- The `/predict` handler, app.py lines 59–106, on a parsed form.  Field
lookups and numeric conversions happen in source evaluation order: height,
weight (lines 62–63), the BMI division (line 64), then the DataFrame literal
fields age, gender, smoking, alcohol, exercise, sleep, systolic, diastolic,
cholesterol, bloodSugar (lines 67–78).  `pd.get_dummies` (line 82) keeps the
numeric columns first in original order and appends one indicator column
`<field>_<value>` per categorical field, in original column order; the
alignment loop is `alignAll`.  The later `metric_status` calls on
lines 99–103 are on correctly shaped values, so they are written here as the
corresponding scalar/pair branch helpers; the raw form strings reused on
lines 100–103 were already fetched and converted successfully earlier, so
re-fetching them cannot fail anew and is elided. -/
def predict (models : String → DiseaseModel) (form : List (String × String)) :
    Except PredictError Response := do
  let height ← getFloat form "height"
  let weight ← getFloat form "weight"
  let bmi ← computeBmi height weight
  let age ← getInt form "age"
  let gender ← formGet form "gender"
  let smoking ← formGet form "smoking"
  let alcohol ← formGet form "alcohol"
  let exercise ← formGet form "exercise"
  let sleep ← getFloat form "sleep"
  let systolicS ← formGet form "systolic"
  let systolic ← parseFloatE systolicS
  let diastolicS ← formGet form "diastolic"
  let diastolic ← parseFloatE diastolicS
  let cholesterolS ← formGet form "cholesterol"
  let cholesterol ← parseFloatE cholesterolS
  let bloodSugarS ← formGet form "bloodSugar"
  let bloodSugar ← parseFloatE bloodSugarS
  let encoded : List (String × ℚ) :=
    [("Age", (age : ℚ)), ("Height_cm", height), ("Weight_kg", weight),
     ("Sleep_Hours", sleep), ("SystolicBP", systolic), ("DiastolicBP", diastolic),
     ("Cholesterol", cholesterol), ("BloodSugar", bloodSugar), ("BMI", bmi),
     ("Gender_" ++ gender, 1), ("Smoking_" ++ smoking, 1),
     ("Alcohol_" ++ alcohol, 1), ("Exercise_Freq_" ++ exercise, 1)]
  let aligned := alignAll models encoded
  let row := aligned.map Prod.snd
  let results := diseases.map fun d =>
    (d, DiseaseEntry.mk (fmt1 ((models d).proba row * 100) ++ "%")
      (risk_status ((models d).proba row)))
  let metrics := [
    ("BMI", MetricEntry.mk (.num (round1 bmi)) (bmiStatus bmi)),
    ("BloodPressure", MetricEntry.mk (.str (systolicS ++ "/" ++ diastolicS))
      (bpStatus systolic diastolic)),
    ("BloodSugar", MetricEntry.mk (.str bloodSugarS) (bloodSugarStatus bloodSugar)),
    ("Cholesterol", MetricEntry.mk (.str cholesterolS) (cholesterolStatus cholesterol))]
  pure (Response.mk results metrics)

/-- Every required form field is present, and each numeric one converts in
its required type. -/
def wellFormed (form : List (String × String)) : Bool :=
  (["height", "weight", "sleep", "systolic", "diastolic", "cholesterol",
      "bloodSugar"].all fun f => ((colLookup f form).bind parseFloat).isSome) &&
    ((colLookup "age" form).bind parseInt).isSome &&
    (["gender", "smoking", "alcohol", "exercise"].all fun f =>
      (colLookup f form).isSome)

/-- A complete valid form for the end-to-end scenario, with the `height`
field left as a parameter. -/
def baseForm (h : String) : List (String × String) :=
  [("height", h), ("weight", "70"), ("age", "30"), ("gender", "Male"),
   ("smoking", "No"), ("alcohol", "No"), ("exercise", "Daily"), ("sleep", "7"),
   ("systolic", "125"), ("diastolic", "78"), ("cholesterol", "250"),
   ("bloodSugar", "110")]

/-- The end-to-end scenario form: height 170, weight 70, bloodSugar 110,
cholesterol 250, systolic 125, diastolic 78. -/
def fullForm : List (String × String) := baseForm "170"

/-- The column set the encoding of `fullForm` produces. -/
def encCols : List String :=
  ["Age", "Height_cm", "Weight_kg", "Sleep_Hours", "SystolicBP", "DiastolicBP",
   "Cholesterol", "BloodSugar", "BMI", "Gender_Male", "Smoking_No",
   "Alcohol_No", "Exercise_Freq_Daily"]

/-- Four identical stub models over the encoded column set, each returning
probability 0.55 — "a disease model returning probability 0.55 for this
input". -/
def stubModels : String → DiseaseModel :=
  fun _ => DiseaseModel.mk encCols (fun _ => 0.55)

/-- Concrete models refuting per-model projection: the first disease in the
loop requires only `Age`, the remaining three require only `BMI`.  The
probability function (never at issue here) just reads the first column. -/
def cModels : String → DiseaseModel := fun d =>
  if d = "Obesity" then DiseaseModel.mk ["Age"] (fun row => row.headD 0)
  else DiseaseModel.mk ["BMI"] (fun row => row.headD 0)

/-- Reduction of `metric_status` at the name "BMI" on a scalar. -/
theorem metric_status_bmi (x : ℚ) :
    metric_status "BMI" (MValue.scalar x) = some (bmiStatus x) := rfl

/-- Reduction of `metric_status` at the name "BloodPressure" on a pair. -/
theorem metric_status_bp (s d : ℚ) :
    metric_status "BloodPressure" (MValue.pair s d) = some (bpStatus s d) := rfl

/-- Reduction of `metric_status` at the name "Cholesterol" on a scalar. -/
theorem metric_status_chol (x : ℚ) :
    metric_status "Cholesterol" (MValue.scalar x) = some (cholesterolStatus x) := rfl

/-- Claim C2: for every probability `p`, the risk label is "High Risk" iff
`p > 0.7`, "Intermediate Risk" iff `0.4 < p ≤ 0.7`, and "Low Risk" iff
`p ≤ 0.4`; in particular `risk_status` sends exactly 0.7 to "Intermediate
Risk" and exactly 0.4 to "Low Risk". -/
theorem risk_status_spec (p : ℚ) :
    (risk_status p = "High Risk" ↔ 0.7 < p) ∧
    (risk_status p = "Intermediate Risk" ↔ 0.4 < p ∧ p ≤ 0.7) ∧
    (risk_status p = "Low Risk" ↔ p ≤ 0.4) ∧
    risk_status 0.7 = "Intermediate Risk" ∧
    risk_status 0.4 = "Low Risk" := by
  refine ⟨?_, ?_, ?_, by with_unfolding_all decide, by with_unfolding_all decide⟩ <;>
    · unfold risk_status
      split_ifs with h1 h2
      · first
        | exact iff_of_true rfl h1
        | exact iff_of_false (by decide) (by rintro ⟨-, hle⟩; linarith)
        | exact iff_of_false (by decide) (by intro hle; linarith)
      · first
        | exact iff_of_false (by decide) h1
        | exact iff_of_true rfl ⟨h2, not_lt.mp h1⟩
        | exact iff_of_false (by decide) (by intro hle; linarith)
      · first
        | exact iff_of_false (by decide) h1
        | exact iff_of_false (by decide) (by rintro ⟨h4, -⟩; exact h2 h4)
        | exact iff_of_true rfl (not_lt.mp h2)

/-- Claim C4: the BMI category is "Underweight" on `(-∞, 18.5)`, "Normal" on
`[18.5, 25)`, "Overweight" on `[25, 30)` and "Obese" on `[30, ∞)`; the
boundary points 18.5, 25 and 30 land in the upper category. -/
theorem bmi_category_spec (v : ℚ) :
    (metric_status "BMI" (MValue.scalar v) = some "Underweight" ↔ v < 18.5) ∧
    (metric_status "BMI" (MValue.scalar v) = some "Normal" ↔ 18.5 ≤ v ∧ v < 25) ∧
    (metric_status "BMI" (MValue.scalar v) = some "Overweight" ↔ 25 ≤ v ∧ v < 30) ∧
    (metric_status "BMI" (MValue.scalar v) = some "Obese" ↔ 30 ≤ v) ∧
    metric_status "BMI" (MValue.scalar 18.5) = some "Normal" ∧
    metric_status "BMI" (MValue.scalar 25) = some "Overweight" ∧
    metric_status "BMI" (MValue.scalar 30) = some "Obese" := by
  refine ⟨?_, ?_, ?_, ?_, by with_unfolding_all decide, by with_unfolding_all decide,
    by with_unfolding_all decide⟩ <;>
    · rw [metric_status_bmi, Option.some.injEq]
      unfold bmiStatus
      split_ifs with h1 h2 h3
      · first
        | exact iff_of_true rfl h1
        | exact iff_of_false (by decide) (by rintro ⟨hle, -⟩; linarith)
        | exact iff_of_false (by decide) (by intro hle; linarith)
      · first
        | exact iff_of_false (by decide) h1
        | exact iff_of_true rfl ⟨not_lt.mp h1, h2⟩
        | exact iff_of_false (by decide) (by rintro ⟨hle, -⟩; linarith)
        | exact iff_of_false (by decide) (by intro hle; linarith)
      · first
        | exact iff_of_false (by decide) h1
        | exact iff_of_false (by decide) (by rintro ⟨-, hlt⟩; exact h2 hlt)
        | exact iff_of_true rfl ⟨not_lt.mp h2, h3⟩
        | exact iff_of_false (by decide) (by intro hle; linarith)
      · first
        | exact iff_of_false (by decide) h1
        | exact iff_of_false (by decide) (by rintro ⟨-, hlt⟩; exact h2 hlt)
        | exact iff_of_false (by decide) (by rintro ⟨-, hlt⟩; exact h3 hlt)
        | exact iff_of_true rfl (not_lt.mp h3)

/-- Claim C3: blood-pressure classification tries the four rules in source
order with the first match winning, so each label is characterized by its
rule conjoined with the failure of all earlier rules; the order-sensitive
input systolic 135, diastolic 70 (which satisfies both the Stage 1 rule and
no earlier rule, while also satisfying `d < 80` from the earlier guards)
classifies as "High BP Stage 1". -/
theorem bp_rule_order_spec (s d : ℚ) :
    (metric_status "BloodPressure" (MValue.pair s d) = some "Normal" ↔
      s < 120 ∧ d < 80) ∧
    (metric_status "BloodPressure" (MValue.pair s d) = some "Elevated" ↔
      120 ≤ s ∧ s < 130 ∧ d < 80) ∧
    (metric_status "BloodPressure" (MValue.pair s d) = some "High BP Stage 1" ↔
      ¬(s < 130 ∧ d < 80) ∧ (s < 140 ∨ d < 90)) ∧
    (metric_status "BloodPressure" (MValue.pair s d) = some "High BP Stage 2" ↔
      140 ≤ s ∧ 90 ≤ d) ∧
    metric_status "BloodPressure" (MValue.pair 135 70) = some "High BP Stage 1" := by
  refine ⟨?_, ?_, ?_, ?_, by with_unfolding_all decide⟩ <;>
    · rw [metric_status_bp, Option.some.injEq]
      unfold bpStatus
      split_ifs with h1 h2 h3
      · first
        | exact iff_of_true rfl h1
        | exact iff_of_false (by decide) (by rintro ⟨hle, -, -⟩; linarith [h1.1])
        | exact iff_of_false (by decide)
            (by rintro ⟨hn, -⟩; exact hn ⟨by linarith [h1.1], h1.2⟩)
        | exact iff_of_false (by decide) (by rintro ⟨hs, -⟩; linarith [h1.1])
      · first
        | exact iff_of_false (by decide) h1
        | exact (iff_of_true rfl
            ⟨by by_contra hs; push_neg at hs; exact h1 ⟨hs, h2.2⟩, h2.1, h2.2⟩)
        | exact iff_of_false (by decide) (by rintro ⟨hn, -⟩; exact hn h2)
        | exact iff_of_false (by decide) (by rintro ⟨hs, -⟩; linarith [h2.1])
      · first
        | exact iff_of_false (by decide) h1
        | exact iff_of_false (by decide) (by rintro ⟨-, hs, hd⟩; exact h2 ⟨hs, hd⟩)
        | exact iff_of_true rfl ⟨h2, h3⟩
        | exact iff_of_false (by decide)
            (by rintro ⟨hs, hd⟩; rcases h3 with h | h <;> linarith)
      · first
        | exact iff_of_false (by decide) h1
        | exact iff_of_false (by decide) (by rintro ⟨-, hs, hd⟩; exact h2 ⟨hs, hd⟩)
        | exact iff_of_false (by decide) (by rintro ⟨-, hor⟩; exact h3 hor)
        | exact iff_of_true rfl (by push_neg at h3; exact ⟨h3.1, h3.2⟩)

/-- Claim C9: a metric name outside {BMI, BloodSugar, BloodPressure,
Cholesterol} falls through every name check, and for every value — scalar or
pair — `metric_status` returns the label "Unknown" rather than raising. -/
theorem metric_status_unknown (name : String) (v : MValue)
    (h1 : name ≠ "BMI") (h2 : name ≠ "BloodSugar")
    (h3 : name ≠ "BloodPressure") (h4 : name ≠ "Cholesterol") :
    metric_status name v = some "Unknown" := by
  unfold metric_status
  rw [if_neg h1, if_neg h2, if_neg h3, if_neg h4]

/-- Witness for C9 at the concrete unrecognized name "HeartRate". -/
theorem metric_status_unknown_witness :
    metric_status "HeartRate" (MValue.scalar 72) = some "Unknown" :=
  metric_status_unknown "HeartRate" (MValue.scalar 72)
    (by decide) (by decide) (by decide) (by decide)

/-- Claim C10: neither classifier validates its input range — a probability
above 1 is still "High Risk", a negative probability is "Low Risk", and a
negative cholesterol or BMI value (forbidden by the RawObservation
invariant but never checked) lands in the lowest category. -/
theorem no_range_validation (p q v : ℚ) (hp : 1 < p) (hq : q < 0) (hv : v < 0) :
    risk_status p = "High Risk" ∧
    risk_status q = "Low Risk" ∧
    metric_status "Cholesterol" (MValue.scalar v) = some "Desirable" ∧
    metric_status "BMI" (MValue.scalar v) = some "Underweight" := by
  refine ⟨?_, ?_, ?_, ?_⟩
  · unfold risk_status
    rw [if_pos (by norm_num at hp ⊢; linarith : (0.7 : ℚ) < p)]
  · have h1 : ¬((0.7 : ℚ) < q) := by intro h; norm_num at h; linarith
    have h2 : ¬((0.4 : ℚ) < q) := by intro h; norm_num at h; linarith
    unfold risk_status
    rw [if_neg h1, if_neg h2]
  · rw [metric_status_chol]
    unfold cholesterolStatus
    rw [if_pos (by linarith : v < 200)]
  · rw [metric_status_bmi]
    unfold bmiStatus
    rw [if_pos (by norm_num; linarith : v < 18.5)]

/-- Witness for C10 at probability 2, probability −1 and metric value −5. -/
theorem no_range_validation_witness :
    risk_status 2 = "High Risk" ∧
    risk_status (-1) = "Low Risk" ∧
    metric_status "Cholesterol" (MValue.scalar (-5)) = some "Desirable" ∧
    metric_status "BMI" (MValue.scalar (-5)) = some "Underweight" :=
  no_range_validation 2 (-1) (-5) (by norm_num) (by norm_num) (by norm_num)

/-- Looking a key up in a frame built by tagging each column of `cols` with a
value: it answers `f c` exactly on the members of `cols`. -/
theorem colLookup_map_mk (f : String → ℚ) (cols : List String) (c : String) :
    colLookup c (cols.map fun c' => (c', f c')) =
      if c ∈ cols then some (f c) else none := by
  induction cols with
  | nil => rfl
  | cons a rest ih =>
      simp only [List.map_cons, colLookup]
      by_cases h : a = c
      · subst h
        simp
      · rw [if_neg h, ih]
        by_cases hc : c ∈ rest
        · rw [if_pos hc, if_pos (List.mem_cons_of_mem a hc)]
        · rw [if_neg hc, if_neg (by
            intro hmem
            rcases List.mem_cons.mp hmem with h' | h'
            · exact h h'.symm
            · exact hc h')]

/-- Claim C8: one pass of the column-projection step (add missing required
columns as 0, drop the rest, reorder to the model's list) is idempotent —
projecting an already-projected frame onto the same column list returns it
unchanged. -/
theorem project_idempotent (cols : List String) (frame : List (String × ℚ)) :
    project cols (project cols frame) = project cols frame := by
  unfold project
  refine List.map_congr_left fun c hc => ?_
  rw [colLookup_map_mk (fun c' => (colLookup c' frame).getD 0) cols c, if_pos hc,
    Option.getD_some]

/-- Claim C1 is refuted by the code: because `input_data` is reassigned on
each loop iteration, the frame handed to every model's `predict_proba` is
the initial frame projected successively through all four models' column
lists, not each model's own projection of the encoded input.  With `cModels`
(Obesity requires only `Age`, the other three require only `BMI`) and an
encoded frame carrying `Age = 30` and `BMI = 24`, every model receives
`[BMI ↦ 0]`: Obesity does not receive its required `Age` column at all, and
the BMI models receive 0 even though `BMI` is present in the encoded input
with value 24 — the claim instead requires Obesity to get `[Age ↦ 30]` and
the others `[BMI ↦ 24]`. -/
theorem align_clobbers :
    alignAll cModels [("Age", 30), ("BMI", 24)] = [("BMI", 0)] ∧
    project (cModels "Obesity").feature_names_in_ [("Age", 30), ("BMI", 24)] =
      [("Age", 30)] ∧
    project (cModels "Hypertension").feature_names_in_ [("Age", 30), ("BMI", 24)] =
      [("BMI", 24)] ∧
    ((0 : ℚ) ≠ 24) ∧
    [("BMI", (0 : ℚ))] ≠ [("Age", (30 : ℚ))] := by
  refine ⟨?_, ?_, ?_, by norm_num, ?_⟩
  · with_unfolding_all rfl
  · with_unfolding_all rfl
  · with_unfolding_all rfl
  · intro h
    exact absurd (congrArg (fun l => Prod.fst (l.headD ("", 0))) h) (by decide)

/-- In `Except`, a bind that produced `ok` had a successful first step. -/
theorem except_ok_of_bind {ε α β : Type} {e : Except ε α} {k : α → Except ε β}
    {r : β} (h : e >>= k = Except.ok r) :
    ∃ v, e = Except.ok v ∧ k v = Except.ok r := by
  cases e with
  | error err =>
      have h2 : (Except.error err : Except ε β) = Except.ok r := h
      exact absurd h2 (by simp)
  | ok v => exact ⟨v, rfl, h⟩

/-- A successful `formGet` is a successful column lookup. -/
theorem formGet_ok {form : List (String × String)} {k s : String}
    (h : formGet form k = Except.ok s) : colLookup k form = some s := by
  unfold formGet at h
  rcases hlk : colLookup k form with - | s'
  · rw [hlk] at h
    exact absurd
      (show (Except.error (PredictError.badRequestKey k) : Except PredictError String) =
        Except.ok s from h) (by simp)
  · rw [hlk] at h
    have h2 : (Except.ok s' : Except PredictError String) = Except.ok s := h
    rw [Except.ok.injEq] at h2
    rw [h2]

/-- A successful `parseFloatE` is a successful `parseFloat`. -/
theorem parseFloatE_ok {s : String} {v : ℚ} (h : parseFloatE s = Except.ok v) :
    parseFloat s = some v := by
  unfold parseFloatE at h
  rcases hp : parseFloat s with - | q
  · rw [hp] at h
    exact absurd
      (show (Except.error PredictError.valueError : Except PredictError ℚ) =
        Except.ok v from h) (by simp)
  · rw [hp] at h
    have h2 : (Except.ok q : Except PredictError ℚ) = Except.ok v := h
    rw [Except.ok.injEq] at h2
    rw [h2]

/-- A successful `parseIntE` is a successful `parseInt`. -/
theorem parseIntE_ok {s : String} {v : ℤ} (h : parseIntE s = Except.ok v) :
    parseInt s = some v := by
  unfold parseIntE at h
  rcases hp : parseInt s with - | q
  · rw [hp] at h
    exact absurd
      (show (Except.error PredictError.valueError : Except PredictError ℤ) =
        Except.ok v from h) (by simp)
  · rw [hp] at h
    have h2 : (Except.ok q : Except PredictError ℤ) = Except.ok v := h
    rw [Except.ok.injEq] at h2
    rw [h2]

/-- A successful `getFloat` means the field is present and converts. -/
theorem getFloat_ok {form : List (String × String)} {k : String} {v : ℚ}
    (h : getFloat form k = Except.ok v) :
    ((colLookup k form).bind parseFloat).isSome = true := by
  obtain ⟨s, hs, hp⟩ := except_ok_of_bind h
  simp [formGet_ok hs, parseFloatE_ok hp]

/-- A successful `getInt` means the field is present and converts. -/
theorem getInt_ok {form : List (String × String)} {k : String} {v : ℤ}
    (h : getInt form k = Except.ok v) :
    ((colLookup k form).bind parseInt).isSome = true := by
  obtain ⟨s, hs, hp⟩ := except_ok_of_bind h
  simp [formGet_ok hs, parseIntE_ok hp]

/-- Claim C6: a request with a missing required field or an unconvertible
numeric field fails outright — the handler can only return a full response
or a single error, and it returns a response only when every required field
is present and converts (first conjunct, stated contrapositively), so a
malformed request produces no disease results and no metric results.  For
the claim's exemplar field `height`: a missing height fails with werkzeug's
field-validation error `BadRequestKeyError`, and a non-numeric height fails
with `ValueError` from `float(...)` (second and third conjuncts). -/
theorem predict_rejects_malformed (models : String → DiseaseModel)
    (form : List (String × String)) :
    ((∃ r, predict models form = Except.ok r) → wellFormed form = true) ∧
    (colLookup "height" form = none →
      predict models form = Except.error (PredictError.badRequestKey "height")) ∧
    (∀ s, colLookup "height" form = some s → parseFloat s = none →
      predict models form = Except.error PredictError.valueError) := by
  refine ⟨?_, ?_, ?_⟩
  · rintro ⟨r, h⟩
    unfold predict at h
    obtain ⟨height, hHeight, h⟩ := except_ok_of_bind h
    obtain ⟨weight, hWeight, h⟩ := except_ok_of_bind h
    obtain ⟨bmi, hBmi, h⟩ := except_ok_of_bind h
    obtain ⟨age, hAge, h⟩ := except_ok_of_bind h
    obtain ⟨gender, hGender, h⟩ := except_ok_of_bind h
    obtain ⟨smoking, hSmoking, h⟩ := except_ok_of_bind h
    obtain ⟨alcohol, hAlcohol, h⟩ := except_ok_of_bind h
    obtain ⟨exercise, hExercise, h⟩ := except_ok_of_bind h
    obtain ⟨sleep, hSleep, h⟩ := except_ok_of_bind h
    obtain ⟨systolicS, hSystolicS, h⟩ := except_ok_of_bind h
    obtain ⟨systolic, hSystolic, h⟩ := except_ok_of_bind h
    obtain ⟨diastolicS, hDiastolicS, h⟩ := except_ok_of_bind h
    obtain ⟨diastolic, hDiastolic, h⟩ := except_ok_of_bind h
    obtain ⟨cholesterolS, hCholesterolS, h⟩ := except_ok_of_bind h
    obtain ⟨cholesterol, hCholesterol, h⟩ := except_ok_of_bind h
    obtain ⟨bloodSugarS, hBloodSugarS, h⟩ := except_ok_of_bind h
    obtain ⟨bloodSugar, hBloodSugar, h⟩ := except_ok_of_bind h
    simp [wellFormed, getFloat_ok hHeight, getFloat_ok hWeight, getFloat_ok hSleep,
      getInt_ok hAge, formGet_ok hGender, formGet_ok hSmoking, formGet_ok hAlcohol,
      formGet_ok hExercise, formGet_ok hSystolicS, parseFloatE_ok hSystolic,
      formGet_ok hDiastolicS, parseFloatE_ok hDiastolic, formGet_ok hCholesterolS,
      parseFloatE_ok hCholesterol, formGet_ok hBloodSugarS, parseFloatE_ok hBloodSugar]
  · intro h
    have hg : getFloat form "height" =
        Except.error (PredictError.badRequestKey "height") := by
      unfold getFloat formGet
      rw [h]
      rfl
    unfold predict
    rw [hg]
    rfl
  · intro s hlk hp
    have hg : getFloat form "height" = Except.error PredictError.valueError := by
      unfold getFloat formGet
      rw [hlk]
      show parseFloatE s = Except.error PredictError.valueError
      unfold parseFloatE
      rw [hp]
    unfold predict
    rw [hg]
    rfl

/-- Witness for C6: the complete form is well-formed and yields a response;
the empty form (no `height`) fails with the 400 `BadRequestKeyError`; the
form whose height is `"abc"` fails with `ValueError`. -/
theorem predict_rejects_malformed_witness :
    wellFormed fullForm = true ∧
    predict stubModels [] = Except.error (PredictError.badRequestKey "height") ∧
    predict stubModels [("height", "abc")] =
      Except.error PredictError.valueError :=
  ⟨(predict_rejects_malformed stubModels fullForm).1
      ⟨_, by with_unfolding_all rfl⟩,
    (predict_rejects_malformed stubModels []).2.1 rfl,
    (predict_rejects_malformed stubModels [("height", "abc")]).2.2 "abc" rfl
      (by with_unfolding_all rfl)⟩

/-- Claim C5 is refuted by the code (evidence for the code_bug verdict): a
request whose height field is the numeral 0 makes the BMI division raise an
unhandled `ZeroDivisionError` — a 500 crash, not a user-visible validation
failure — and a request with the strictly negative height −170 does not fail
at all: its denominator squares to a positive number and a full response is
produced. -/
theorem height_nonpositive_behavior :
    predict stubModels (baseForm "0") = Except.error PredictError.zeroDivision ∧
    isValidationFailure PredictError.zeroDivision = false ∧
    (∃ r, predict stubModels (baseForm "-170") = Except.ok r) :=
  ⟨by with_unfolding_all rfl, rfl, ⟨_, by with_unfolding_all rfl⟩⟩

/-- Claim C7: the end-to-end scenario.  On height 170, weight 70, bloodSugar
110, cholesterol 250, systolic 125, diastolic 78 (remaining fields valid)
with every model reporting probability 0.55: BMI displays as the rounded
24.2 with status "Normal", BloodPressure has value "125/78" and status
"Elevated", BloodSugar is "Prediabetes", Cholesterol is "High", and every
disease entry is chance "55.0%" with status "Intermediate Risk". -/
theorem end_to_end :
    predict stubModels fullForm = Except.ok (Response.mk
      [("Obesity", DiseaseEntry.mk "55.0%" "Intermediate Risk"),
       ("Hypertension", DiseaseEntry.mk "55.0%" "Intermediate Risk"),
       ("Diabetes", DiseaseEntry.mk "55.0%" "Intermediate Risk"),
       ("HeartDisease", DiseaseEntry.mk "55.0%" "Intermediate Risk")]
      [("BMI", MetricEntry.mk (Val.num 24.2) "Normal"),
       ("BloodPressure", MetricEntry.mk (Val.str "125/78") "Elevated"),
       ("BloodSugar", MetricEntry.mk (Val.str "110") "Prediabetes"),
       ("Cholesterol", MetricEntry.mk (Val.str "250") "High")]) := by
  with_unfolding_all rfl

end WellnessWave
